import Mathlib

/-!
Verification of the memory-crystal pattern store
(`services/memory-crystal-service/app.py`).

The embedding models Python JSON-like values as `PyVal`, the per-record
`MemoryCrystal` class, the process-wide `MemoryCrystalManager` state, the
two storage backends (Redis modelled as an association list of
already-parsed JSON values, the fallback as an association list of
`MemoryCrystal` records), and the five store operations
`generate_crystal_id`, `store_crystal`, `retrieve_crystal`,
`search_crystals` and `calculate_crystal_efficiency`.

Modelling conventions:
  - wall-clock instants (`datetime.now()`, `time.time()`) are rationals
    passed explicitly to each operation;
  - `hashlib.md5(...).hexdigest()[:12]` is modelled by `md5hex12`, a
    concrete deterministic stand-in hash (the development relies only on
    its determinism and not on particular digest values);
  - `datetime.isoformat()` is modelled by `isoformat`, a concrete
    injective rendering of the instant;
  - a Redis `setex` write that fails at the I/O level is modelled by the
    Boolean oracle argument `redisOk` of `store_crystal` (the Python
    `except` handler then returns `None` with no state change);
  - `json.loads(json.dumps(v, default=str))` is modelled by
    `jsonRoundTrip`, which is the identity except that a non-serializable
    object (`PyVal.obj`) is replaced by its `str()` rendering, exactly
    what `default=str` produces.
-/

/-- Python values as they occur in this service: JSON scalars, lists,
dicts (association lists in insertion order, as Python dicts are
ordered), plus `obj`, a stand-in for a non-JSON-serializable Python
object (its field is the `str()` rendering Python would produce). -/
inductive PyVal where
  | null : PyVal
  | bool (b : Bool) : PyVal
  | int (n : Int) : PyVal
  | rat (q : ℚ) : PyVal
  | str (s : String) : PyVal
  | list (xs : List PyVal) : PyVal
  | dict (es : List (String × PyVal)) : PyVal
  | obj (tag : String) : PyVal

/-- Python truthiness (`bool(v)`) for the values above. -/
def pyTruthy : PyVal → Bool
  | .null => false
  | .bool b => b
  | .int n => n ≠ 0
  | .rat q => q ≠ 0
  | .str s => s ≠ ""
  | .list xs => !xs.isEmpty
  | .dict es => !es.isEmpty
  | .obj _ => true

/-- Python `v or {}` as used in `MemoryCrystal.__init__`. -/
def pyOrEmptyDict (v : PyVal) : PyVal :=
  if pyTruthy v then v else .dict []

/-- First-match association-list lookup (Python dict indexing /
`redis.get` on our modelled key space). -/
def lookupEntries {α : Type} : List (String × α) → String → Option α
  | [], _ => none
  | (k, v) :: t, key => if k = key then some v else lookupEntries t key

/-- Overwrite-or-append update of an association list (Python
`d[k] = v`, `redis.setex` on an existing or fresh key). -/
def setEntry {α : Type} : List (String × α) → String → α → List (String × α)
  | [], k, v => [(k, v)]
  | (k0, v0) :: t, k, v =>
      if k0 = k then (k, v) :: t else (k0, v0) :: setEntry t k v

/-- `defaultdict(int)` increment: `d[k] += 1`. -/
def bumpEntry : List (String × Nat) → String → List (String × Nat)
  | [], k => [(k, 1)]
  | (k0, n) :: t, k =>
      if k0 = k then (k0, n + 1) :: t else (k0, n) :: bumpEntry t k

/-- Python `.get(k)` on a dict (with `None` default); `none` on a
non-dict means the attribute access would raise in Python, which the
callers below model explicitly. -/
def pyGet : PyVal → String → Option PyVal
  | .dict es, k => lookupEntries es k
  | _, _ => none

mutual
/-- `json.dumps(v)` with Python's default separators; `none` models the
`TypeError` raised on a non-serializable object. -/
def dumps : PyVal → Option String
  | .null => some "null"
  | .bool b => some (if b then "true" else "false")
  | .int n => some (toString n)
  | .rat q => some (toString q)
  | .str s => some ("\"" ++ s ++ "\"")
  | .list xs => (dumpsList xs).map (fun s => "[" ++ s ++ "]")
  | .dict es => (dumpsEntries es).map (fun s => "\x7b" ++ s ++ "\x7d")
  | .obj _ => none

/-- Comma-joined serialization of a JSON array's elements. -/
def dumpsList : List PyVal → Option String
  | [] => some ""
  | [v] => dumps v
  | v :: w :: t => do
      let a ← dumps v
      let b ← dumpsList (w :: t)
      pure (a ++ ", " ++ b)

/-- Comma-joined serialization of a JSON object's entries. -/
def dumpsEntries : List (String × PyVal) → Option String
  | [] => some ""
  | [(k, v)] => (dumps v).map (fun s => "\"" ++ k ++ "\": " ++ s)
  | (k, v) :: e :: t => do
      let a ← dumps v
      let b ← dumpsEntries (e :: t)
      pure ("\"" ++ k ++ "\": " ++ a ++ ", " ++ b)
end

/-- Key-ordered insertion used to model `sort_keys=True`. -/
def insertEntrySorted (e : String × PyVal) :
    List (String × PyVal) → List (String × PyVal)
  | [] => [e]
  | f :: t => if e.1 < f.1 then e :: f :: t else f :: insertEntrySorted e t

/-- Insertion sort of a dict's entries by key (`sort_keys=True`). -/
def sortEntries : List (String × PyVal) → List (String × PyVal)
  | [] => []
  | e :: t => insertEntrySorted e (sortEntries t)

mutual
/-- Recursively sort every dict's entries by key, so that
`dumps (sortKeysDeep v)` models `json.dumps(v, sort_keys=True)`. -/
def sortKeysDeep : PyVal → PyVal
  | .null => .null
  | .bool b => .bool b
  | .int n => .int n
  | .rat q => .rat q
  | .str s => .str s
  | .list xs => .list (sortKeysDeepList xs)
  | .dict es => .dict (sortEntries (sortKeysDeepEntries es))
  | .obj tag => .obj tag

/-- `sortKeysDeep` mapped over a list's elements. -/
def sortKeysDeepList : List PyVal → List PyVal
  | [] => []
  | v :: t => sortKeysDeep v :: sortKeysDeepList t

/-- `sortKeysDeep` mapped over a dict's values. -/
def sortKeysDeepEntries : List (String × PyVal) → List (String × PyVal)
  | [] => []
  | (k, v) :: t => (k, sortKeysDeep v) :: sortKeysDeepEntries t
end

/-- `json.dumps(v, sort_keys=True)`. -/
def dumpsSorted (v : PyVal) : Option String :=
  dumps (sortKeysDeep v)

mutual
/-- Serializability check: `true` exactly when `json.dumps` (without
`default=`) would succeed, i.e. no `obj` occurs in the value. -/
def noObj : PyVal → Bool
  | .null => true
  | .bool _ => true
  | .int _ => true
  | .rat _ => true
  | .str _ => true
  | .list xs => noObjList xs
  | .dict es => noObjEntries es
  | .obj _ => false

/-- `noObj` over a list's elements. -/
def noObjList : List PyVal → Bool
  | [] => true
  | v :: t => noObj v && noObjList t

/-- `noObj` over a dict's values. -/
def noObjEntries : List (String × PyVal) → Bool
  | [] => true
  | (_, v) :: t => noObj v && noObjEntries t
end

mutual
/-- `json.loads(json.dumps(v, default=str))`: identity on JSON values,
and a non-serializable object is replaced by its `str()` rendering by
the `default=str` hook. -/
def jsonRoundTrip : PyVal → PyVal
  | .null => .null
  | .bool b => .bool b
  | .int n => .int n
  | .rat q => .rat q
  | .str s => .str s
  | .list xs => .list (jsonRoundTripList xs)
  | .dict es => .dict (jsonRoundTripEntries es)
  | .obj tag => .str tag

/-- `jsonRoundTrip` mapped over a list's elements. -/
def jsonRoundTripList : List PyVal → List PyVal
  | [] => []
  | v :: t => jsonRoundTrip v :: jsonRoundTripList t

/-- `jsonRoundTrip` mapped over a dict's values. -/
def jsonRoundTripEntries : List (String × PyVal) → List (String × PyVal)
  | [] => []
  | (k, v) :: t => (k, jsonRoundTrip v) :: jsonRoundTripEntries t
end

/-- Deterministic stand-in for `hashlib.md5(s.encode()).hexdigest()[:12]`
(a 12-hex-character digest; the development relies only on the function
being deterministic, never on particular digest values). -/
def md5hex12 (s : String) : String :=
  let h : Nat := s.toList.foldl (fun h c => (h * 131 + c.toNat) % (2 ^ 48)) 5381
  let ds := (Nat.toDigits 16 h).map id
  String.mk (List.replicate (12 - ds.length) (Char.ofNat 48) ++ ds.take 12)

/-- Deterministic injective stand-in for `datetime.isoformat()` on a
modelled instant. -/
def isoformat (t : ℚ) : String :=
  "ts:" ++ toString t

/-- Case-insensitive list prefix test (character lists). -/
def chListPrefix : List Char → List Char → Bool
  | [], _ => true
  | _ :: _, [] => false
  | a :: as, b :: bs => a == b && chListPrefix as bs

/-- Substring occurrence of `needle` in `hay` (character lists). -/
def chListInfixAt (needle : List Char) : List Char → Bool
  | [] => chListPrefix needle []
  | c :: t => chListPrefix needle (c :: t) || chListInfixAt needle t

/-- Python `needle.lower() in hay.lower()`. -/
def strContainsCI (hay needle : String) : Bool :=
  chListInfixAt needle.toLower.toList hay.toLower.toList

/-- Python's builtin `min` on two rationals. -/
def pymin (a b : ℚ) : ℚ := if a ≤ b then a else b

/-- Python's builtin `max` on two rationals. -/
def pymax (a b : ℚ) : ℚ := if b ≤ a then a else b

/-- The `MemoryCrystal` record (class of the same name in the source). -/
structure MemoryCrystal where
  crystal_id : String
  category : String
  pattern_data : PyVal
  metadata : PyVal
  created_at : ℚ
  last_accessed : ℚ
  access_count : Nat
  efficiency_score : ℚ

/-- `MemoryCrystal.__init__` at instant `t` (both `datetime.now()` calls
are modelled with the same instant); note the Python `or {}` coercion of
falsy `pattern_data` / `metadata`. -/
def MemoryCrystal.make (cid category : String) (pattern_data metadata : PyVal)
    (t : ℚ) : MemoryCrystal :=
  { crystal_id := cid
    category := category
    pattern_data := pyOrEmptyDict pattern_data
    metadata := pyOrEmptyDict metadata
    created_at := t
    last_accessed := t
    access_count := 0
    efficiency_score := 0 }

/-- `MemoryCrystal.to_dict`. -/
def MemoryCrystal.to_dict (c : MemoryCrystal) : PyVal :=
  .dict [("crystal_id", .str c.crystal_id),
         ("category", .str c.category),
         ("pattern_data", c.pattern_data),
         ("metadata", c.metadata),
         ("created_at", .str (isoformat c.created_at)),
         ("last_accessed", .str (isoformat c.last_accessed)),
         ("access_count", .int c.access_count),
         ("efficiency_score", .rat c.efficiency_score)]

/-- `MemoryCrystal.update_access`, with `t1` the `datetime.now()` call
that sets `last_accessed` and `t2` the later `time.time()` call used by
the recency factor. -/
def MemoryCrystal.update_access (c : MemoryCrystal) (t1 t2 : ℚ) : MemoryCrystal :=
  let ac := c.access_count + 1
  let time_factor : ℚ := pymin 1 ((ac : ℚ) / 10)
  let recency_factor : ℚ := pymax (1 / 10) (1 - (t2 - t1) / (7 * 24 * 3600))
  { c with last_accessed := t1
           access_count := ac
           efficiency_score := (time_factor * (6 / 10) + recency_factor * (4 / 10)) * 100 }

/-- One sample of the efficiency-history list (the dict appended by
`calculate_crystal_efficiency`; `cacheRatio` is the source's
`cache_ratio` key). -/
structure EffSample where
  timestamp : ℚ
  efficiency : ℚ
  cacheRatio : ℚ
  active_crystals : Nat
deriving DecidableEq

/-- One achievement entry appended by `reward_broskie_crystals`. -/
structure Achievement where
  atype : String
  time : String
  reward : Nat
  value : Nat
deriving DecidableEq

/-- The `MemoryCrystalManager` singleton state; `hits`/`misses` are the
`cache_performance` dict's two counters. -/
structure CrystalManager where
  crystals : List (String × MemoryCrystal)
  access_patterns : List (String × Nat)
  efficiency_history : List EffSample
  total_operations : Nat
  hits : Nat
  misses : Nat
  broskie_balance : Nat
  achievements : List Achievement

/-- Full process state: the backend choice fixed at startup
(`REDIS_AVAILABLE`), the Redis contents (values stored as the parse of
the serialized record, see `jsonRoundTrip`), and the manager. -/
structure SysState where
  redisAvailable : Bool
  redis : List (String × PyVal)
  mgr : CrystalManager

/-- Manager state at process start. -/
def initManager : CrystalManager :=
  { crystals := []
    access_patterns := []
    efficiency_history := []
    total_operations := 0
    hits := 0
    misses := 0
    broskie_balance := 0
    achievements := [] }

/-- Process state at startup for a given backend choice. -/
def initState (redisAvailable : Bool) : SysState :=
  { redisAvailable := redisAvailable, redis := [], mgr := initManager }

/-- `generate_crystal_id`: serialize the payload with sorted keys,
prefix the category, hash and truncate; `none` models the `TypeError`
on a non-serializable payload (caught by `store_crystal`). -/
def generate_crystal_id (pattern_data : PyVal) (category : String) : Option String :=
  (dumpsSorted pattern_data).map (fun s => md5hex12 (category ++ ":" ++ s))

/-- `reward_broskie_crystals`; only the `storage_milestone` branch is
reachable from the embedded operations (the other reward kinds are fired
by the background monitor thread, outside this embedding), so only that
branch is modelled; its `title()`d label is written out. -/
def reward_broskie_crystals (m : CrystalManager) (kind : String) (value : Nat)
    (t : ℚ) : CrystalManager :=
  if kind = "storage_milestone" then
    let reward := value * 10
    { m with broskie_balance := m.broskie_balance + reward
             achievements := m.achievements ++
               [{ atype := "Storage Milestone", time := isoformat t
                  reward := reward, value := value }] }
  else m

/-- Lines 135-140 of `store_crystal`: bump `total_operations` and fire
the storage-milestone reward on every tenth write. -/
def storeBump (s : SysState) (t : ℚ) : SysState :=
  let m1 := { s.mgr with total_operations := s.mgr.total_operations + 1 }
  let m2 := if m1.total_operations % 10 = 0 then
              reward_broskie_crystals m1 "storage_milestone" m1.total_operations t
            else m1
  { s with mgr := m2 }

/-- `store_crystal category pattern_data metadata` at instant `t`;
`redisOk` is the I/O oracle for the `setex` call (`false` models a
transient Redis failure, whose exception the function catches, returning
`None` with no state change).  In Redis mode the value written is the
parse of `json.dumps(crystal.to_dict(), default=str)`, i.e.
`jsonRoundTrip crystal.to_dict` (that `dumps` never raises thanks to
`default=str`). -/
def store_crystal (s : SysState) (redisOk : Bool) (t : ℚ) (category : String)
    (pattern_data metadata : PyVal) : Option String × SysState :=
  match generate_crystal_id pattern_data category with
  | none => (none, s)
  | some cid =>
    let crystal := MemoryCrystal.make cid category pattern_data metadata t
    if s.redisAvailable then
      if redisOk then
        let s1 := { s with
          redis := setEntry s.redis ("crystal:" ++ cid) (jsonRoundTrip crystal.to_dict) }
        (some cid, storeBump s1 t)
      else (none, s)
    else
      let s1 := { s with
        mgr := { s.mgr with crystals := setEntry s.mgr.crystals cid crystal } }
      (some cid, storeBump s1 t)

/-- `retrieve_crystal` at instants `t1` (`datetime.now()` inside
`update_access`) and `t2` (`time.time()` there); the instants are unused
on the Redis path, which performs no access-bookkeeping write-back.  A
Redis value's serialized form is never the empty string, so the `if
data:` truthiness test always passes on a present key. -/
def retrieve_crystal (s : SysState) (t1 t2 : ℚ) (cid : String) :
    Option PyVal × SysState :=
  if s.redisAvailable then
    match lookupEntries s.redis ("crystal:" ++ cid) with
    | some data =>
        let m1 := { s.mgr with hits := s.mgr.hits + 1 }
        let m2 := if pyTruthy data then
                    { m1 with access_patterns := bumpEntry m1.access_patterns cid }
                  else m1
        (some data, { s with mgr := m2 })
    | none =>
        (none, { s with mgr := { s.mgr with misses := s.mgr.misses + 1 } })
  else
    match lookupEntries s.mgr.crystals cid with
    | some crystal =>
        let c2 := crystal.update_access t1 t2
        let d := c2.to_dict
        let m1 := { s.mgr with
          crystals := setEntry s.mgr.crystals cid c2
          hits := s.mgr.hits + 1 }
        let m2 := if pyTruthy d then
                    { m1 with access_patterns := bumpEntry m1.access_patterns cid }
                  else m1
        (some d, { s with mgr := m2 })
    | none =>
        (none, { s with mgr := { s.mgr with misses := s.mgr.misses + 1 } })

/-- Truthiness of an optional string parameter (`if category and ...`,
`if pattern_match and ...`): absent (`None`) and empty strings are
falsy. -/
def optTruthy : Option String → Bool
  | none => false
  | some s => s ≠ ""

/-- Python `v != category` where `category` is a string and `v` an
arbitrary JSON value (`.get('category')` result). -/
def pyEqStr (v : PyVal) (c : String) : Bool :=
  match v with
  | .str s => s == c
  | _ => false

/-- Per-item filter of the Redis search branch; `none` models a raised
exception (`.get` on a non-dict, or `json.dumps` on a non-serializable
payload), `some true` keep, `some false` skip (`continue`). -/
def redisFilterStep (category pattern_match : Option String) (d : PyVal) :
    Option Bool :=
  match (if optTruthy category then
           match d with
           | .dict es =>
               some (pyEqStr ((lookupEntries es "category").getD .null)
                     (category.getD ""))
           | _ => none
         else some true) with
  | none => none
  | some false => some false
  | some true =>
      if optTruthy pattern_match then
        match d with
        | .dict es =>
            match dumps ((lookupEntries es "pattern_data").getD (.dict [])) with
            | none => none
            | some pdStr => some (strContainsCI pdStr (pattern_match.getD ""))
        | _ => none
      else some true

/-- Per-item filter of the in-memory search branch. -/
def memFilterStep (category pattern_match : Option String) (c : MemoryCrystal) :
    Option Bool :=
  if optTruthy category && !(c.category == category.getD "") then some false
  else if optTruthy pattern_match then
    match dumps c.pattern_data with
    | none => none
    | some pdStr => some (strContainsCI pdStr (pattern_match.getD ""))
  else some true

/-- The search accumulation loop shared by both branches of
`search_crystals`: per item, `step` yields `none` on a raised exception
(aborting the whole search), `some none` on a filtered-out item, and
`some (some d)` on a match, which is appended; the loop stops as soon as
`len(results) >= limit` holds after an append. -/
def searchLoop {α : Type} (step : α → Option (Option PyVal)) (limit : Nat) :
    List α → List PyVal → Option (List PyVal)
  | [], acc => some acc
  | x :: rest, acc =>
    match step x with
    | none => none
    | some none => searchLoop step limit rest acc
    | some (some d) =>
        let acc2 := acc ++ [d]
        if limit ≤ acc2.length then some acc2
        else searchLoop step limit rest acc2

/-- Redis-branch step: a kept stored value is appended as-is. -/
def redisStep (category pattern_match : Option String) (d : PyVal) :
    Option (Option PyVal) :=
  match redisFilterStep category pattern_match d with
  | none => none
  | some true => some (some d)
  | some false => some none

/-- Memory-branch step: a kept crystal is appended as `to_dict`. -/
def memStep (category pattern_match : Option String) (c : MemoryCrystal) :
    Option (Option PyVal) :=
  match memFilterStep category pattern_match c with
  | none => none
  | some true => some (some c.to_dict)
  | some false => some none

/-- `search_crystals category pattern_match limit`.  The Redis branch
scans the keys matching `crystal:*` capped at `2 × limit`, the memory
branch iterates all crystals; an exception anywhere makes the function
return `[]` (its `except` handler). -/
def search_crystals (s : SysState) (category pattern_match : Option String)
    (limit : Nat) : List PyVal :=
  if s.redisAvailable then
    let vals := ((s.redis.filter
        (fun kv => chListPrefix ("crystal:".toList) kv.1.toList)).take
        (limit * 2)).map (fun kv => kv.2)
    match searchLoop (redisStep category pattern_match) limit vals [] with
    | none => []
    | some r => r
  else
    match searchLoop (memStep category pattern_match) limit
        (s.mgr.crystals.map (fun kv => kv.2)) [] with
    | none => []
    | some r => r

/-- Number of distinct ids accessed at least once
(`len([k for k, v in access_patterns.items() if v > 0])`). -/
def activeCount (s : SysState) : Nat :=
  (s.mgr.access_patterns.filter (fun kv => 0 < kv.2)).length

/-- `calculate_crystal_efficiency` at instant `t` (the `time.time()`
stamp of the appended history sample). -/
def calculate_crystal_efficiency (s : SysState) (t : ℚ) : ℚ × SysState :=
  let hits := s.mgr.hits
  let misses := s.mgr.misses
  let cacheRatio : ℚ :=
    if hits + misses = 0 then 100
    else ((hits : ℚ) / ((hits : ℚ) + (misses : ℚ))) * 100
  let active := activeCount s
  let efficiency := cacheRatio * (6 / 10) + pymin 100 ((active : ℚ) * 2) * (4 / 10)
  let hist1 := s.mgr.efficiency_history ++
    [{ timestamp := t, efficiency := efficiency, cacheRatio := cacheRatio
       active_crystals := active }]
  let hist2 := if 100 < hist1.length then hist1.tail else hist1
  (efficiency, { s with mgr := { s.mgr with efficiency_history := hist2 } })

/-- Size of the chosen backend's key space, used to phrase
"overwrite, not a new record". -/
def backendSize (s : SysState) : Nat :=
  if s.redisAvailable then s.redis.length else s.mgr.crystals.length

/-- State after `n` further `retrieve_crystal` calls on `cid`, the
`k`-th call using the instants `ts k`. -/
def retrieveIter (cid : String) (ts : Nat → ℚ × ℚ) : Nat → SysState → SysState
  | 0, s => s
  | n + 1, s =>
      (retrieve_crystal (retrieveIter cid ts n s) (ts n).1 (ts n).2 cid).2

/-! ## Basic lemmas -/

/-- `pymin` agrees with the lattice `min` on `ℚ`. -/
theorem pymin_eq_min (a b : ℚ) : pymin a b = min a b := by
  rw [pymin, min_def]

/-- `pymax` agrees with the lattice `max` on `ℚ`. -/
theorem pymax_eq_max (a b : ℚ) : pymax a b = max a b := by
  rw [pymax, max_def]
  rcases le_total a b with h | h
  · rcases eq_or_lt_of_le h with rfl | hlt
    · simp
    · rw [if_pos h, if_neg (not_le.mpr hlt)]
  · rw [if_pos h]
    rcases eq_or_lt_of_le h with rfl | hlt
    · simp
    · rw [if_neg (not_le.mpr hlt)]

/-- Looking up the key just written returns the value written. -/
theorem lookupEntries_setEntry_self {α : Type} (l : List (String × α))
    (k : String) (v : α) : lookupEntries (setEntry l k v) k = some v := by
  induction l with
  | nil => simp [setEntry, lookupEntries]
  | cons e t ih =>
    by_cases hk : e.1 = k
    · simp [setEntry, hk, lookupEntries]
    · simp [setEntry, hk, lookupEntries, ih]

/-- Writing to a key already present keeps the key-space size. -/
theorem setEntry_length_of_mem {α : Type} (l : List (String × α))
    (k : String) (v : α) (h : (lookupEntries l k).isSome) :
    (setEntry l k v).length = l.length := by
  induction l with
  | nil => simp [lookupEntries] at h
  | cons e t ih =>
    by_cases hk : e.1 = k
    · simp [setEntry, hk]
    · rw [lookupEntries] at h
      simp only [hk, if_false] at h
      simp [setEntry, hk, ih h]

/-! ## Characterizations of the store operations -/

/-- Effect of `storeBump`: the write counter is incremented and only
the reward fields (`broskie_balance`, `achievements`) may otherwise
change. -/
theorem storeBump_spec (s : SysState) (t : ℚ) :
    (storeBump s t).redisAvailable = s.redisAvailable ∧
    (storeBump s t).redis = s.redis ∧
    (storeBump s t).mgr.crystals = s.mgr.crystals ∧
    (storeBump s t).mgr.access_patterns = s.mgr.access_patterns ∧
    (storeBump s t).mgr.efficiency_history = s.mgr.efficiency_history ∧
    (storeBump s t).mgr.hits = s.mgr.hits ∧
    (storeBump s t).mgr.misses = s.mgr.misses ∧
    (storeBump s t).mgr.total_operations = s.mgr.total_operations + 1 := by
  by_cases h10 : (s.mgr.total_operations + 1) % 10 = 0 <;>
    simp [storeBump, reward_broskie_crystals, h10]

/-- Characterization of a successful `store_crystal` call: the returned
id is the content fingerprint, the record is written to the chosen
backend (serialized through JSON in Redis mode), the write counter is
incremented, and the hit/miss counters, access patterns and efficiency
history are untouched. -/
theorem store_some_spec {s : SysState} {ok : Bool} {t : ℚ} {cat : String}
    {pd md : PyVal} {i : String} {s2 : SysState}
    (h : store_crystal s ok t cat pd md = (some i, s2)) :
    generate_crystal_id pd cat = some i ∧
    s2.redisAvailable = s.redisAvailable ∧
    s2.mgr.hits = s.mgr.hits ∧
    s2.mgr.misses = s.mgr.misses ∧
    s2.mgr.access_patterns = s.mgr.access_patterns ∧
    s2.mgr.efficiency_history = s.mgr.efficiency_history ∧
    s2.mgr.total_operations = s.mgr.total_operations + 1 ∧
    (s.redisAvailable = true →
      s2.redis = setEntry s.redis ("crystal:" ++ i)
        (jsonRoundTrip (MemoryCrystal.make i cat pd md t).to_dict) ∧
      s2.mgr.crystals = s.mgr.crystals) ∧
    (s.redisAvailable = false →
      s2.mgr.crystals = setEntry s.mgr.crystals i (MemoryCrystal.make i cat pd md t) ∧
      s2.redis = s.redis) := by
  unfold store_crystal at h
  cases hg : generate_crystal_id pd cat with
  | none => rw [hg] at h; exact absurd (congrArg Prod.fst h) (by simp)
  | some cid =>
    rw [hg] at h
    cases hra : s.redisAvailable with
    | false =>
      rw [hra] at h
      simp only [Bool.false_eq_true, if_false, Prod.mk.injEq, Option.some.injEq] at h
      obtain ⟨rfl, hs2⟩ := h
      subst hs2
      obtain ⟨b1, b2, b3, b4, b5, b6, b7, b8⟩ := storeBump_spec _ t
      refine ⟨rfl, by rw [b1], b6, b7, b4, b5, b8, ?_, ?_⟩
      · intro hc; exact Bool.noConfusion hc
      · exact fun _ => ⟨b3, b2⟩
    | true =>
      rw [hra] at h
      simp only [if_true] at h
      cases ok with
      | false => exact absurd (congrArg Prod.fst h) (by simp)
      | true =>
        simp only [if_true, Prod.mk.injEq, Option.some.injEq] at h
        obtain ⟨rfl, hs2⟩ := h
        subst hs2
        obtain ⟨b1, b2, b3, b4, b5, b6, b7, b8⟩ := storeBump_spec _ t
        refine ⟨rfl, by rw [b1], b6, b7, b4, b5, b8, ?_, ?_⟩
        · exact fun _ => ⟨b2, b3⟩
        · intro hc; exact Bool.noConfusion hc

/-- A Redis-mode miss: `None` is returned and only the miss counter
changes. -/
theorem retrieve_miss_redis_spec {s : SysState} (t1 t2 : ℚ) {cid : String}
    (hra : s.redisAvailable = true)
    (hl : lookupEntries s.redis ("crystal:" ++ cid) = none) :
    retrieve_crystal s t1 t2 cid =
      (none, { s with mgr := { s.mgr with misses := s.mgr.misses + 1 } }) := by
  unfold retrieve_crystal
  rw [hra]
  simp only [if_true, hl]

/-- A fallback-mode miss: `None` is returned and only the miss counter
changes. -/
theorem retrieve_miss_mem_spec {s : SysState} (t1 t2 : ℚ) {cid : String}
    (hra : s.redisAvailable = false)
    (hl : lookupEntries s.mgr.crystals cid = none) :
    retrieve_crystal s t1 t2 cid =
      (none, { s with mgr := { s.mgr with misses := s.mgr.misses + 1 } }) := by
  unfold retrieve_crystal
  rw [hra]
  simp only [Bool.false_eq_true, if_false, hl]

/-- A fallback-mode hit: the record's access bookkeeping is updated in
place, its refreshed `to_dict` is returned, and the hit counter and the
id's access-pattern count are incremented. -/
theorem retrieve_hit_mem_spec {s : SysState} (t1 t2 : ℚ) {cid : String}
    {c : MemoryCrystal} (hra : s.redisAvailable = false)
    (hl : lookupEntries s.mgr.crystals cid = some c) :
    retrieve_crystal s t1 t2 cid =
      (some (c.update_access t1 t2).to_dict,
       { s with mgr := { s.mgr with
           crystals := setEntry s.mgr.crystals cid (c.update_access t1 t2)
           hits := s.mgr.hits + 1
           access_patterns := bumpEntry s.mgr.access_patterns cid } }) := by
  unfold retrieve_crystal
  rw [hra]
  simp only [Bool.false_eq_true, if_false, hl]
  rfl

/-- A Redis-mode hit: the stored value is returned untouched, the Redis
contents and the crystal map are left unchanged, and the hit counter
(and, for a truthy value, the access-pattern count) is incremented. -/
theorem retrieve_hit_redis_spec {s : SysState} (t1 t2 : ℚ) {cid : String}
    {v : PyVal} (hra : s.redisAvailable = true)
    (hl : lookupEntries s.redis ("crystal:" ++ cid) = some v) :
    retrieve_crystal s t1 t2 cid =
      (some v,
       { s with mgr := { s.mgr with
           hits := s.mgr.hits + 1
           access_patterns := if pyTruthy v then
               bumpEntry s.mgr.access_patterns cid
             else s.mgr.access_patterns } }) := by
  unfold retrieve_crystal
  rw [hra]
  simp only [if_true, hl]
  by_cases hv : pyTruthy v <;> simp [hv]

/-! ## JSON round trip on serializable values -/

mutual
/-- The `default=str` JSON round trip is the identity on serializable
values. -/
theorem jsonRoundTrip_noObj : ∀ v : PyVal, noObj v = true → jsonRoundTrip v = v
  | .null, _ => rfl
  | .bool _, _ => rfl
  | .int _, _ => rfl
  | .rat _, _ => rfl
  | .str _, _ => rfl
  | .obj _, h => Bool.noConfusion h
  | .list xs, h => congrArg PyVal.list (jsonRoundTripList_noObj xs h)
  | .dict es, h => congrArg PyVal.dict (jsonRoundTripEntries_noObj es h)

/-- List version of `jsonRoundTrip_noObj`. -/
theorem jsonRoundTripList_noObj :
    ∀ xs : List PyVal, noObjList xs = true → jsonRoundTripList xs = xs
  | [], _ => rfl
  | v :: t, h => by
      have h2 := (Bool.and_eq_true _ _).mp h
      show jsonRoundTrip v :: jsonRoundTripList t = v :: t
      rw [jsonRoundTrip_noObj v h2.1, jsonRoundTripList_noObj t h2.2]

/-- Entries version of `jsonRoundTrip_noObj`. -/
theorem jsonRoundTripEntries_noObj :
    ∀ es : List (String × PyVal), noObjEntries es = true → jsonRoundTripEntries es = es
  | [], _ => rfl
  | (k, v) :: t, h => by
      have h2 := (Bool.and_eq_true _ _).mp h
      show (k, jsonRoundTrip v) :: jsonRoundTripEntries t = (k, v) :: t
      rw [jsonRoundTrip_noObj v h2.1, jsonRoundTripEntries_noObj t h2.2]
end

/-! ## Search loop invariants -/

/-- `pyEqStr v c` succeeds exactly on the string value `c`. -/
theorem pyEqStr_true {v : PyVal} {c : String} (h : pyEqStr v c = true) :
    v = .str c := by
  cases v <;> simp [pyEqStr] at h
  exact congrArg PyVal.str h

/-- Invariant of the bounded search loop: starting below the limit with
an accumulator of matching records, a normally-returned result respects
the limit and contains only records accepted by `step`. -/
theorem searchLoop_spec {α : Type} (step : α → Option (Option PyVal))
    (P : PyVal → Prop) (hstep : ∀ x d, step x = some (some d) → P d)
    (limit : Nat) :
    ∀ (l : List α) (acc r : List PyVal),
      acc.length < limit → (∀ d ∈ acc, P d) →
      searchLoop step limit l acc = some r →
      r.length ≤ limit ∧ ∀ d ∈ r, P d := by
  intro l
  induction l with
  | nil =>
    intro acc r hlen hP h
    rw [searchLoop] at h
    obtain rfl := Option.some.inj h
    exact ⟨le_of_lt hlen, hP⟩
  | cons x rest ih =>
    intro acc r hlen hP h
    rw [searchLoop] at h
    cases hs : step x with
    | none => rw [hs] at h; cases h
    | some o =>
      rw [hs] at h
      cases o with
      | none => exact ih acc r hlen hP h
      | some d =>
        simp only at h
        have hPd : P d := hstep x d hs
        have hP2 : ∀ e ∈ acc ++ [d], P e := by
          intro e he
          rcases List.mem_append.mp he with h1 | h2
          · exact hP e h1
          · rw [List.mem_singleton] at h2; subst h2; exact hPd
        by_cases hle : limit ≤ (acc ++ [d]).length
        · rw [if_pos hle] at h
          obtain rfl := Option.some.inj h
          refine ⟨?_, hP2⟩
          simp only [List.length_append, List.length_singleton]
          omega
        · rw [if_neg hle] at h
          refine ih (acc ++ [d]) r ?_ hP2 h
          simp only [List.length_append, List.length_singleton] at hle ⊢
          omega

/-- The `category` field of a returned search record
(`record.get('category')`). -/
def categoryOf (d : PyVal) : PyVal :=
  (pyGet d "category").getD .null

/-- The `pattern_data` field of a returned search record
(`record.get('pattern_data', {})`). -/
def patternOf (d : PyVal) : PyVal :=
  (pyGet d "pattern_data").getD (.dict [])

/-- What acceptance by the Redis-branch filter guarantees about a
record. -/
theorem redisStep_kept {category pattern_match : Option String} {d e : PyVal}
    (h : redisStep category pattern_match d = some (some e)) :
    e = d ∧
    (optTruthy category = true → categoryOf d = .str (category.getD "")) ∧
    (optTruthy pattern_match = true → ∃ ps,
      dumps (patternOf d) = some ps ∧
      strContainsCI ps (pattern_match.getD "") = true) := by
  unfold redisStep at h
  cases hf : redisFilterStep category pattern_match d with
  | none => rw [hf] at h; cases h
  | some b =>
    rw [hf] at h
    cases b with
    | false => simp at h
    | true =>
      simp only [Option.some.injEq] at h
      obtain rfl := h.symm
      refine ⟨rfl, ?_, ?_⟩ <;> unfold redisFilterStep at hf
      · intro hcat
        rw [hcat] at hf
        simp only [if_true] at hf
        cases e with
        | dict es =>
          simp only at hf
          cases hq : pyEqStr ((lookupEntries es "category").getD .null)
              (category.getD "") with
          | false => rw [hq] at hf; simp at hf
          | true =>
            have := pyEqStr_true hq
            simpa [categoryOf, pyGet] using this
        | null => simp at hf
        | bool b => simp at hf
        | int n => simp at hf
        | rat q => simp at hf
        | str s => simp at hf
        | list xs => simp at hf
        | obj tag => simp at hf
      · intro hpm
        cases hcat : optTruthy category with
        | true =>
          rw [hcat] at hf
          simp only [if_true] at hf
          cases e with
          | dict es =>
            simp only at hf
            cases hq : pyEqStr ((lookupEntries es "category").getD .null)
                (category.getD "") with
            | false => rw [hq] at hf; simp at hf
            | true =>
              rw [hq] at hf
              simp only [if_true, hpm] at hf
              cases hd : dumps ((lookupEntries es "pattern_data").getD (.dict [])) with
              | none => rw [hd] at hf; cases hf
              | some ps =>
                rw [hd] at hf
                simp only [Option.some.injEq] at hf
                exact ⟨ps, by simpa [patternOf, pyGet] using hd, hf⟩
          | null => simp at hf
          | bool b => simp at hf
          | int n => simp at hf
          | rat q => simp at hf
          | str s => simp at hf
          | list xs => simp at hf
          | obj tag => simp at hf
        | false =>
          rw [hcat] at hf
          simp only [Bool.false_eq_true, if_false, hpm, if_true] at hf
          cases e with
          | dict es =>
            simp only at hf
            cases hd : dumps ((lookupEntries es "pattern_data").getD (.dict [])) with
            | none => rw [hd] at hf; cases hf
            | some ps =>
              rw [hd] at hf
              simp only [Option.some.injEq] at hf
              exact ⟨ps, by simpa [patternOf, pyGet] using hd, hf⟩
          | null => simp at hf
          | bool b => simp at hf
          | int n => simp at hf
          | rat q => simp at hf
          | str s => simp at hf
          | list xs => simp at hf
          | obj tag => simp at hf

/-- What acceptance by the memory-branch filter guarantees about the
returned `to_dict` record. -/
theorem memStep_kept {category pattern_match : Option String}
    {c : MemoryCrystal} {e : PyVal}
    (h : memStep category pattern_match c = some (some e)) :
    e = c.to_dict ∧
    (optTruthy category = true → c.category = category.getD "") ∧
    (optTruthy pattern_match = true → ∃ ps,
      dumps c.pattern_data = some ps ∧
      strContainsCI ps (pattern_match.getD "") = true) := by
  unfold memStep at h
  cases hf : memFilterStep category pattern_match c with
  | none => rw [hf] at h; cases h
  | some b =>
    rw [hf] at h
    cases b with
    | false => simp at h
    | true =>
      simp only [Option.some.injEq] at h
      obtain rfl := h.symm
      refine ⟨rfl, ?_, ?_⟩ <;> unfold memFilterStep at hf
      · intro hcat
        rw [hcat] at hf
        by_cases hc : c.category == category.getD ""
        · exact eq_of_beq hc
        · simp [hc] at hf
      · intro hpm
        rw [hpm] at hf
        by_cases hkeep : optTruthy category && !(c.category == category.getD "")
        · rw [if_pos hkeep] at hf; cases hf
        · rw [if_neg hkeep, if_pos rfl] at hf
          cases hd : dumps c.pattern_data with
          | none => rw [hd] at hf; cases hf
          | some ps =>
            rw [hd] at hf
            simp only [Option.some.injEq] at hf
            exact ⟨ps, rfl, hf⟩

/-! ## Claim theorems -/

/-- C1: for every category and pattern payload, two successive successful
`store_crystal` (Put) calls with identical `(category, pattern_data)`
return the same id both times — the id is the pure content fingerprint
`generate_crystal_id` (sorted-keys serialization, category prefix, hash,
truncation) — and the second write overwrites the first record rather
than creating a new one: the backend key-space size is unchanged. -/
theorem c1_put_idempotent_fingerprint {s : SysState} {ok1 ok2 : Bool}
    {u1 u2 : ℚ} {cat : String} {pd md1 md2 : PyVal} {i1 i2 : String}
    {s1 s2 : SysState}
    (h1 : store_crystal s ok1 u1 cat pd md1 = (some i1, s1))
    (h2 : store_crystal s1 ok2 u2 cat pd md2 = (some i2, s2)) :
    i1 = i2 ∧ backendSize s2 = backendSize s1 := by
  obtain ⟨g1, ra1, _, _, _, _, _, hr1, hm1⟩ := store_some_spec h1
  obtain ⟨g2, ra2, _, _, _, _, _, hr2, hm2⟩ := store_some_spec h2
  have hi : i1 = i2 := by rw [g1] at g2; exact Option.some.inj g2
  subst hi
  refine ⟨rfl, ?_⟩
  cases hra : s.redisAvailable with
  | true =>
    have hra1 : s1.redisAvailable = true := by rw [ra1, hra]
    have hra2 : s2.redisAvailable = true := by rw [ra2, hra1]
    obtain ⟨hw1, _⟩ := hr1 hra
    obtain ⟨hw2, _⟩ := hr2 hra1
    unfold backendSize
    rw [hra1, hra2]
    simp only [if_true]
    rw [hw2]
    apply setEntry_length_of_mem
    rw [hw1, lookupEntries_setEntry_self]
    rfl
  | false =>
    have hra1 : s1.redisAvailable = false := by rw [ra1, hra]
    have hra2 : s2.redisAvailable = false := by rw [ra2, hra1]
    obtain ⟨hw1, _⟩ := hm1 hra
    obtain ⟨hw2, _⟩ := hm2 hra1
    unfold backendSize
    rw [hra1, hra2]
    simp only [Bool.false_eq_true, if_false]
    rw [hw2]
    apply setEntry_length_of_mem
    rw [hw1, lookupEntries_setEntry_self]
    rfl

/-- First store of the C1 witness run (fallback mode). -/
def c1PutA : Option String × SysState :=
  store_crystal (initState false) true 0 "workflow"
    (.dict [("step", .int 1)]) (.dict [])

/-- Second store of the C1 witness run: same category and payload,
different metadata and instant. -/
def c1PutB : Option String × SysState :=
  store_crystal c1PutA.2 true 1 "workflow"
    (.dict [("step", .int 1)]) (.dict [("tag", .str "again")])

/-- C1 witness: a concrete double Put returning equal ids and leaving the
key-space size unchanged. -/
theorem c1_put_idempotent_fingerprint_witness :
    c1PutA.1.getD "" = c1PutB.1.getD "" ∧
    backendSize c1PutB.2 = backendSize c1PutA.2 :=
  c1_put_idempotent_fingerprint
    (show store_crystal (initState false) true 0 "workflow"
        (.dict [("step", .int 1)]) (.dict [])
        = (some (c1PutA.1.getD ""), c1PutA.2) from rfl)
    (show store_crystal c1PutA.2 true 1 "workflow"
        (.dict [("step", .int 1)]) (.dict [("tag", .str "again")])
        = (some (c1PutB.1.getD ""), c1PutB.2) from rfl)

/-- C3: `retrieve_crystal` (Get) on an id that is absent from the chosen
backend returns `NotFound` (`None`) — never an error — and the whole
state change is exactly a miss-counter increment: the hit counter, the
write counter and everything else are untouched, in both backend
modes. -/
theorem c3_get_missing_id_counts_one_miss (s : SysState) (t1 t2 : ℚ)
    (cid : String)
    (h1 : s.redisAvailable = true →
      lookupEntries s.redis ("crystal:" ++ cid) = none)
    (h2 : s.redisAvailable = false →
      lookupEntries s.mgr.crystals cid = none) :
    retrieve_crystal s t1 t2 cid =
      (none, { s with mgr := { s.mgr with misses := s.mgr.misses + 1 } }) ∧
    (retrieve_crystal s t1 t2 cid).2.mgr.hits = s.mgr.hits ∧
    (retrieve_crystal s t1 t2 cid).2.mgr.total_operations
      = s.mgr.total_operations := by
  rcases Bool.eq_false_or_eq_true s.redisAvailable with hra | hra
  · have h := retrieve_miss_redis_spec t1 t2 hra (h1 hra)
    exact ⟨h, by rw [h], by rw [h]⟩
  · have h := retrieve_miss_mem_spec t1 t2 hra (h2 hra)
    exact ⟨h, by rw [h], by rw [h]⟩

/-- C3 witness: a Get for an id never written against the fresh fallback
store returns `NotFound` and bumps only the miss counter. -/
theorem c3_get_missing_id_counts_one_miss_witness :
    retrieve_crystal (initState false) 0 0 "ghost" =
      (none, { initState false with mgr := { (initState false).mgr with
        misses := (initState false).mgr.misses + 1 } }) :=
  (c3_get_missing_id_counts_one_miss (initState false) 0 0 "ghost"
    (fun h => nomatch h) (fun _ => rfl)).1

/-- C9: `store_crystal` (Put) is atomic on failure — if serialization of
`pattern_data` fails the call returns an error (`None`) with the state
completely unchanged (so no record and no counter changes), if the
backend write fails likewise, and on success the write counter is
incremented by exactly one while the hit and miss counters are
untouched. -/
theorem c9_put_failure_atomicity (s : SysState) (ok : Bool) (t : ℚ)
    (cat : String) (pd md : PyVal) :
    (dumpsSorted pd = none → store_crystal s ok t cat pd md = (none, s)) ∧
    (s.redisAvailable = true → ok = false →
      store_crystal s ok t cat pd md = (none, s)) ∧
    (∀ i s2, store_crystal s ok t cat pd md = (some i, s2) →
      s2.mgr.total_operations = s.mgr.total_operations + 1 ∧
      s2.mgr.hits = s.mgr.hits ∧
      s2.mgr.misses = s.mgr.misses) := by
  refine ⟨?_, ?_, ?_⟩
  · intro hd
    unfold store_crystal generate_crystal_id
    rw [hd]
    rfl
  · intro hra hok
    subst hok
    unfold store_crystal
    cases hg : generate_crystal_id pd cat with
    | none => rfl
    | some cid => rw [hra]; rfl
  · intro i s2 h
    obtain ⟨_, _, hh, hm, _, _, ht, _, _⟩ := store_some_spec h
    exact ⟨ht, hh, hm⟩

/-- C9 witness: storing a non-serializable payload over the Redis backend
fails with no state change. -/
theorem c9_put_failure_atomicity_witness :
    store_crystal (initState true) false 0 "debug" (.obj "set1") (.dict [])
      = (none, initState true) :=
  (c9_put_failure_atomicity (initState true) false 0 "debug"
    (.obj "set1") (.dict [])).1 (by rfl)

/-- C10: in Redis mode a Get leaves the persisted entry untouched — the
Redis contents and the crystal map are unchanged and the call returns
exactly the stored snapshot — and every record written by Put carries
`access_count = 0`, `efficiency_score = 0` and the write-time
`last_accessed`, so a Redis-mode Get always reports `access_count = 0`
no matter how often the id has been read. -/
theorem c10_redis_get_returns_pure_snapshot (s : SysState) (t1 t2 : ℚ)
    (cid : String) (hra : s.redisAvailable = true) :
    (retrieve_crystal s t1 t2 cid).2.redis = s.redis ∧
    (retrieve_crystal s t1 t2 cid).2.mgr.crystals = s.mgr.crystals ∧
    (retrieve_crystal s t1 t2 cid).1
      = lookupEntries s.redis ("crystal:" ++ cid) ∧
    (∀ ok t cat pd md i s2, store_crystal s ok t cat pd md = (some i, s2) →
      pyGet ((lookupEntries s2.redis ("crystal:" ++ i)).getD .null)
        "access_count" = some (.int 0) ∧
      pyGet ((lookupEntries s2.redis ("crystal:" ++ i)).getD .null)
        "efficiency_score" = some (.rat 0) ∧
      pyGet ((lookupEntries s2.redis ("crystal:" ++ i)).getD .null)
        "last_accessed" = some (.str (isoformat t))) := by
  refine ⟨?_, ?_, ?_, ?_⟩
  · cases hl : lookupEntries s.redis ("crystal:" ++ cid) with
    | none => rw [retrieve_miss_redis_spec t1 t2 hra hl]
    | some v => rw [retrieve_hit_redis_spec t1 t2 hra hl]
  · cases hl : lookupEntries s.redis ("crystal:" ++ cid) with
    | none => rw [retrieve_miss_redis_spec t1 t2 hra hl]
    | some v => rw [retrieve_hit_redis_spec t1 t2 hra hl]
  · cases hl : lookupEntries s.redis ("crystal:" ++ cid) with
    | none => rw [retrieve_miss_redis_spec t1 t2 hra hl]
    | some v => rw [retrieve_hit_redis_spec t1 t2 hra hl]
  · intro ok t cat pd md i s2 h
    obtain ⟨_, _, _, _, _, _, _, hr, _⟩ := store_some_spec h
    obtain ⟨hw, _⟩ := hr hra
    rw [hw, lookupEntries_setEntry_self]
    exact ⟨rfl, rfl, rfl⟩

/-- Concrete Redis-mode store used by the C10 witness. -/
def c10Put : Option String × SysState :=
  store_crystal (initState true) true 0 "workflow"
    (.dict [("step", .int 1)]) (.dict [])

/-- C10 witness: a concrete Redis-mode store writes a snapshot whose
`access_count` is 0, `efficiency_score` is 0 and `last_accessed` is the
write instant. -/
theorem c10_redis_get_returns_pure_snapshot_witness :
    pyGet ((lookupEntries c10Put.2.redis ("crystal:" ++ c10Put.1.getD "")).getD .null)
      "access_count" = some (.int 0) ∧
    pyGet ((lookupEntries c10Put.2.redis ("crystal:" ++ c10Put.1.getD "")).getD .null)
      "efficiency_score" = some (.rat 0) ∧
    pyGet ((lookupEntries c10Put.2.redis ("crystal:" ++ c10Put.1.getD "")).getD .null)
      "last_accessed" = some (.str (isoformat 0)) :=
  (c10_redis_get_returns_pure_snapshot (initState true) 0 0 "x" rfl).2.2.2
    true 0 "workflow" (.dict [("step", .int 1)]) (.dict [])
    (c10Put.1.getD "") c10Put.2 (by rfl)

/-- Falsy payloads survive the `or {}` coercion as serializable values. -/
theorem noObj_pyOrEmptyDict {v : PyVal} (h : noObj v = true) :
    noObj (pyOrEmptyDict v) = true := by
  unfold pyOrEmptyDict
  split
  · exact h
  · rfl

/-- Fallback-mode store of the falsy payload `False`, for the C2
counterexample. -/
def c2CexPut : Option String × SysState :=
  store_crystal (initState false) true 0 "debug" (.bool false) (.dict [])

/-- Retrieval immediately after `c2CexPut`. -/
def c2CexGet : Option PyVal × SysState :=
  retrieve_crystal c2CexPut.2 1 1 (c2CexPut.1.getD "")

/-- C2 counterexample: Put of the falsy payload `False` succeeds, but the
record returned by the immediately following Get carries
`pattern_data = {}`, not the value passed to Put — the `or {}` coercion
in `MemoryCrystal.__init__` breaks the claimed equality for falsy
payloads (and likewise for falsy metadata). -/
theorem c2_cex_falsy_payload_not_round_tripped :
    c2CexPut.1.isSome = true ∧
    (c2CexGet.1.bind (fun d => pyGet d "pattern_data")) = some (.dict []) ∧
    PyVal.dict [] ≠ PyVal.bool false :=
  ⟨rfl, rfl, fun h => PyVal.noConfusion h⟩

/-- C2 (amended): Get immediately after a successful Put returns a record
whose `pattern_data` and `metadata` equal the stored values up to the
Python `or {}` coercion of falsy arguments (truthy values round-trip
unchanged), provided both values are JSON-serializable; this holds in
both backend modes. -/
theorem c2_get_after_put_round_trips (t1 t2 : ℚ) {s : SysState} {ok : Bool}
    {t : ℚ} {cat : String} {pd md : PyVal} {i : String} {s1 : SysState}
    (hpd : noObj pd = true) (hmd : noObj md = true)
    (h : store_crystal s ok t cat pd md = (some i, s1)) :
    ∃ d, (retrieve_crystal s1 t1 t2 i).1 = some d ∧
      pyGet d "pattern_data" = some (pyOrEmptyDict pd) ∧
      pyGet d "metadata" = some (pyOrEmptyDict md) := by
  obtain ⟨_, ra1, _, _, _, _, _, hr, hm⟩ := store_some_spec h
  rcases Bool.eq_false_or_eq_true s.redisAvailable with hra | hra
  · have hra1 : s1.redisAvailable = true := by rw [ra1, hra]
    obtain ⟨hw, _⟩ := hr hra
    have hl : lookupEntries s1.redis ("crystal:" ++ i)
        = some (jsonRoundTrip (MemoryCrystal.make i cat pd md t).to_dict) := by
      rw [hw]; exact lookupEntries_setEntry_self _ _ _
    rw [retrieve_hit_redis_spec t1 t2 hra1 hl]
    refine ⟨_, rfl, ?_, ?_⟩
    · have he : pyGet (jsonRoundTrip (MemoryCrystal.make i cat pd md t).to_dict)
          "pattern_data" = some (jsonRoundTrip (pyOrEmptyDict pd)) := rfl
      rw [he, jsonRoundTrip_noObj _ (noObj_pyOrEmptyDict hpd)]
    · have he : pyGet (jsonRoundTrip (MemoryCrystal.make i cat pd md t).to_dict)
          "metadata" = some (jsonRoundTrip (pyOrEmptyDict md)) := rfl
      rw [he, jsonRoundTrip_noObj _ (noObj_pyOrEmptyDict hmd)]
  · have hra1 : s1.redisAvailable = false := by rw [ra1, hra]
    obtain ⟨hc, _⟩ := hm hra
    have hl : lookupEntries s1.mgr.crystals i
        = some (MemoryCrystal.make i cat pd md t) := by
      rw [hc]; exact lookupEntries_setEntry_self _ _ _
    rw [retrieve_hit_mem_spec t1 t2 hra1 hl]
    exact ⟨_, rfl, rfl, rfl⟩

/-- Redis-mode store used by the C2 witness. -/
def c2Put : Option String × SysState :=
  store_crystal (initState true) true 0 "workflow"
    (.dict [("step", .int 1)]) (.dict [("tags", .list [.str "a"])])

/-- C2 witness: the amended round trip at a concrete Redis-mode store. -/
theorem c2_get_after_put_round_trips_witness :
    ∃ d, (retrieve_crystal c2Put.2 1 2 (c2Put.1.getD "")).1 = some d ∧
      pyGet d "pattern_data"
        = some (pyOrEmptyDict (.dict [("step", .int 1)])) ∧
      pyGet d "metadata"
        = some (pyOrEmptyDict (.dict [("tags", .list [.str "a"])])) :=
  c2_get_after_put_round_trips 1 2 (by rfl) (by rfl)
    (show store_crystal (initState true) true 0 "workflow"
        (.dict [("step", .int 1)]) (.dict [("tags", .list [.str "a"])])
        = (some (c2Put.1.getD ""), c2Put.2) from rfl)

/-- The efficiency returned by `calculate_crystal_efficiency`, written
out. -/
theorem calculate_crystal_efficiency_fst (s : SysState) (t : ℚ) :
    (calculate_crystal_efficiency s t).1 =
      (if s.mgr.hits + s.mgr.misses = 0 then (100 : ℚ)
       else ((s.mgr.hits : ℚ) / ((s.mgr.hits : ℚ) + (s.mgr.misses : ℚ))) * 100)
        * (6 / 10)
      + pymin 100 ((activeCount s : ℚ) * 2) * (4 / 10) := rfl

/-- C4 counterexample: on a fresh store (no hits, no misses, no accessed
records) `calculate_crystal_efficiency` returns 60, not the claimed 100:
the optimistic `cache_ratio = 100` is still weighted by 0.6 and the
activity term contributes 0. -/
theorem c4_cex_cold_system_is_60_not_100 :
    (calculate_crystal_efficiency (initState false) 0).1 = 60 ∧
    (60 : ℚ) ≠ 100 :=
  ⟨by with_unfolding_all decide, by norm_num⟩

/-- C4 (amended): the system efficiency always lies in `[0, 100]`; with
zero hits and zero misses it equals `0.6×100 + 0.4×min(100,
2×activeCount)` — which is 60, not 100, when no record has been accessed
— and otherwise it equals `0.6×(hits/(hits+misses)×100) + 0.4×min(100,
2×activeCount)` as claimed. -/
theorem c4_system_efficiency_formula (s : SysState) (t : ℚ) :
    0 ≤ (calculate_crystal_efficiency s t).1 ∧
    (calculate_crystal_efficiency s t).1 ≤ 100 ∧
    (s.mgr.hits = 0 ∧ s.mgr.misses = 0 →
      (calculate_crystal_efficiency s t).1
        = 60 + (2 / 5) * min 100 (2 * (activeCount s : ℚ))) ∧
    (0 < s.mgr.hits + s.mgr.misses →
      (calculate_crystal_efficiency s t).1
        = (3 / 5) * (((s.mgr.hits : ℚ) / ((s.mgr.hits : ℚ) + (s.mgr.misses : ℚ)))
            * 100)
          + (2 / 5) * min 100 (2 * (activeCount s : ℚ))) := by
  rw [calculate_crystal_efficiency_fst, pymin_eq_min]
  have hA0 : (0 : ℚ) ≤ (activeCount s : ℚ) := Nat.cast_nonneg _
  have hmin0 : 0 ≤ min (100 : ℚ) ((activeCount s : ℚ) * 2) :=
    le_min (by norm_num) (by positivity)
  have hmin100 : min (100 : ℚ) ((activeCount s : ℚ) * 2) ≤ 100 := min_le_left _ _
  have hAc : min (100 : ℚ) ((activeCount s : ℚ) * 2)
      = min 100 (2 * (activeCount s : ℚ)) := by rw [mul_comm]
  by_cases h0 : s.mgr.hits + s.mgr.misses = 0
  · rw [if_pos h0]
    refine ⟨by linarith, by linarith, ?_, ?_⟩
    · intro _; rw [hAc]; ring
    · intro hp; exact absurd h0 (by omega)
  · rw [if_neg h0]
    have hsum : (0 : ℚ) < (s.mgr.hits : ℚ) + (s.mgr.misses : ℚ) := by
      have : 0 < s.mgr.hits + s.mgr.misses := Nat.pos_of_ne_zero h0
      exact_mod_cast this
    have hr0 : 0 ≤ (s.mgr.hits : ℚ) / ((s.mgr.hits : ℚ) + (s.mgr.misses : ℚ)) := by
      positivity
    have hr1 : (s.mgr.hits : ℚ) / ((s.mgr.hits : ℚ) + (s.mgr.misses : ℚ)) ≤ 1 := by
      rw [div_le_one hsum]
      exact le_add_of_nonneg_right (Nat.cast_nonneg _)
    refine ⟨by nlinarith, by nlinarith, ?_, ?_⟩
    · rintro ⟨hH, hM⟩; exact absurd h0 (by omega)
    · intro _; rw [hAc]; ring

/-- C4 witness: on the fresh store the zero-counter branch of the amended
formula applies (and yields 60). -/
theorem c4_system_efficiency_formula_witness :
    (calculate_crystal_efficiency (initState false) 0).1
      = 60 + (2 / 5) * min 100 (2 * (activeCount (initState false) : ℚ)) :=
  (c4_system_efficiency_formula (initState false) 0).2.2.1 ⟨rfl, rfl⟩

/-- Fallback-mode store used by the C5 counterexample and witness. -/
def c5Put : Option String × SysState :=
  store_crystal (initState false) true 0 "workflow"
    (.dict [("step", .int 1)]) (.dict [])

/-- C5 counterexample: with `limit = 0` the fallback search still returns
one record (the length check runs only after an append), so the
"at most L records" part fails at L = 0; and the empty-string category
is falsy, which disables the filter entirely, so a search for category
`""` returns a record whose category is `"workflow" ≠ ""`. -/
theorem c5_cex_limit_zero_and_empty_category :
    (search_crystals c5Put.2 (some "workflow") none 0).length = 1 ∧
    ¬((1 : Nat) ≤ 0) ∧
    (search_crystals c5Put.2 (some "") none 10).map categoryOf
      = [.str "workflow"] ∧
    PyVal.str "workflow" ≠ PyVal.str "" :=
  ⟨rfl, by decide, rfl, fun h => absurd (PyVal.str.inj h) (by decide)⟩

/-- C5 (amended): for every limit `L ≥ 1` and nonempty category `C`,
`search_crystals` returns at most `L` records, each with category equal
to `C`; and whenever a nonempty substring filter is given, each returned
record's `pattern_data` serializes to a canonical JSON string containing
the filter case-insensitively.  (Limit 0 can over-return by one record
in fallback mode, and the empty-string category or filter is treated as
absent — Python falsiness — hence the two restrictions.) -/
theorem c5_search_respects_category_and_limit (s : SysState) {C : String}
    (pm : Option String) {L : Nat} (hC : C ≠ "") (hL : 1 ≤ L) :
    (search_crystals s (some C) pm L).length ≤ L ∧
    ∀ d ∈ search_crystals s (some C) pm L,
      categoryOf d = .str C ∧
      ∀ p, pm = some p → p ≠ "" →
        ∃ ps, dumps (patternOf d) = some ps ∧ strContainsCI ps p = true := by
  have hCt : optTruthy (some C) = true := by simp [optTruthy, hC]
  set P : PyVal → Prop := fun d =>
    categoryOf d = .str C ∧
    ∀ p, pm = some p → p ≠ "" →
      ∃ ps, dumps (patternOf d) = some ps ∧ strContainsCI ps p = true with hP
  have hstepR : ∀ x d, redisStep (some C) pm x = some (some d) → P d := by
    intro x d hx
    obtain ⟨rfl, hcat, hpat⟩ := redisStep_kept hx
    refine ⟨hcat hCt, ?_⟩
    intro p hp hpne
    subst hp
    have hpmt : optTruthy (some p) = true := by simp [optTruthy, hpne]
    simpa using hpat hpmt
  have hstepM : ∀ x d, memStep (some C) pm x = some (some d) → P d := by
    intro x d hx
    obtain ⟨rfl, hcat, hpat⟩ := memStep_kept hx
    constructor
    · show categoryOf x.to_dict = .str C
      have he : categoryOf x.to_dict = .str x.category := rfl
      rw [he, hcat hCt]
      rfl
    · intro p hp hpne
      subst hp
      have hpmt : optTruthy (some p) = true := by simp [optTruthy, hpne]
      have he : patternOf x.to_dict = x.pattern_data := rfl
      rw [he]
      simpa using hpat hpmt
  unfold search_crystals
  rcases Bool.eq_false_or_eq_true s.redisAvailable with hra | hra
  · rw [hra]
    simp only [if_true]
    cases hr : searchLoop (redisStep (some C) pm) L
        (((s.redis.filter
          (fun kv => chListPrefix ("crystal:".toList) kv.1.toList)).take
          (L * 2)).map (fun kv => kv.2)) [] with
    | none => simp
    | some r =>
      obtain ⟨h1, h2⟩ :=
        searchLoop_spec _ P hstepR L _ [] r (by simpa using hL) (by simp) hr
      exact ⟨h1, h2⟩
  · rw [hra]
    simp only [Bool.false_eq_true, if_false]
    cases hr : searchLoop (memStep (some C) pm) L
        (s.mgr.crystals.map (fun kv => kv.2)) [] with
    | none => simp
    | some r =>
      obtain ⟨h1, h2⟩ :=
        searchLoop_spec _ P hstepM L _ [] r (by simpa using hL) (by simp) hr
      exact ⟨h1, h2⟩

/-- C5 witness: a concrete fallback search with limit 3 respects the
bound. -/
theorem c5_search_respects_category_and_limit_witness :
    (search_crystals c5Put.2 (some "workflow") none 3).length ≤ 3 :=
  (c5_search_respects_category_and_limit c5Put.2 none (by decide) (by decide)).1

/-- Invariant behind C6: in fallback mode, each further retrieve of the
same id bumps the stored record's `access_count` by one. -/
theorem retrieveIter_keeps_crystal {s1 : SysState} {cid : String}
    (ts : Nat → ℚ × ℚ) (hra : s1.redisAvailable = false)
    {c0 : MemoryCrystal} (hl : lookupEntries s1.mgr.crystals cid = some c0)
    (h0 : c0.access_count = 0) :
    ∀ k : Nat, (retrieveIter cid ts k s1).redisAvailable = false ∧
      ∃ c, lookupEntries (retrieveIter cid ts k s1).mgr.crystals cid = some c ∧
        c.access_count = k := by
  intro k
  induction k with
  | zero => exact ⟨hra, c0, hl, h0⟩
  | succ k ih =>
    obtain ⟨hra2, c, hlc, hac⟩ := ih
    rw [retrieveIter, retrieve_hit_mem_spec (ts k).1 (ts k).2 hra2 hlc]
    refine ⟨hra2, c.update_access (ts k).1 (ts k).2,
      lookupEntries_setEntry_self _ _ _, ?_⟩
    show c.access_count + 1 = k + 1
    rw [hac]

/-- C6: in fallback mode, after storing a record and then performing `n`
successful Gets on its id with no intervening Put, the record returned
by the `n`-th Get reports `access_count = n`. -/
theorem c6_fallback_access_count_counts_reads {s : SysState} {ok : Bool}
    {t : ℚ} {cat : String} {pd md : PyVal} {cid : String} {s1 : SysState}
    (ts : Nat → ℚ × ℚ) (hra : s.redisAvailable = false)
    (h : store_crystal s ok t cat pd md = (some cid, s1)) :
    ∀ n : Nat, 0 < n →
      ∃ d, (retrieve_crystal (retrieveIter cid ts (n - 1) s1)
              (ts (n - 1)).1 (ts (n - 1)).2 cid).1 = some d ∧
        pyGet d "access_count" = some (.int n) := by
  obtain ⟨_, ra1, _, _, _, _, _, _, hm⟩ := store_some_spec h
  have hra1 : s1.redisAvailable = false := by rw [ra1, hra]
  obtain ⟨hc, _⟩ := hm hra
  have hl : lookupEntries s1.mgr.crystals cid
      = some (MemoryCrystal.make cid cat pd md t) := by
    rw [hc]; exact lookupEntries_setEntry_self _ _ _
  intro n hn
  obtain ⟨hra2, c, hlc, hac⟩ := retrieveIter_keeps_crystal ts hra1 hl rfl (n - 1)
  rw [retrieve_hit_mem_spec (ts (n - 1)).1 (ts (n - 1)).2 hra2 hlc]
  refine ⟨_, rfl, ?_⟩
  show some (PyVal.int ((c.access_count + 1 : Nat) : Int)) = some (.int (n : Int))
  rw [hac]
  have hn1 : n - 1 + 1 = n := Nat.succ_pred_eq_of_pos hn
  rw [hn1]

/-- Fallback-mode store used by the C6 witness. -/
def c6Put : Option String × SysState :=
  store_crystal (initState false) true 0 "hyperfocus"
    (.dict [("pat", .str "deep")]) (.dict [])

/-- C6 witness: the second Get on a concrete stored id reports
`access_count = 2`. -/
theorem c6_fallback_access_count_counts_reads_witness :
    ∃ d, (retrieve_crystal (retrieveIter (c6Put.1.getD "")
            (fun _ => (1, 1)) 1 c6Put.2) 1 1 (c6Put.1.getD "")).1 = some d ∧
      pyGet d "access_count" = some (.int 2) :=
  c6_fallback_access_count_counts_reads (fun _ => (1, 1)) rfl
    (show store_crystal (initState false) true 0 "hyperfocus"
        (.dict [("pat", .str "deep")]) (.dict [])
        = (some (c6Put.1.getD ""), c6Put.2) from rfl) 2 (by decide)

/-- The score written by `update_access`, written out. -/
theorem update_access_score (c : MemoryCrystal) (t1 t2 : ℚ) :
    (c.update_access t1 t2).efficiency_score
      = (pymin 1 (((c.access_count + 1 : Nat) : ℚ) / 10) * (6 / 10)
         + pymax (1 / 10) (1 - (t2 - t1) / (7 * 24 * 3600)) * (4 / 10)) * 100 :=
  rfl

/-- Redis-mode store used by the C7 counterexample. -/
def c7Put : Option String × SysState :=
  store_crystal (initState true) true 0 "workflow"
    (.dict [("step", .int 1)]) (.dict [])

/-- Redis-mode retrieve at instant 5 of the record stored at instant 0. -/
def c7Get : Option PyVal × SysState :=
  retrieve_crystal c7Put.2 5 5 (c7Put.1.getD "")

/-- C7 counterexample: a successful Redis-mode read does not recompute
the per-record efficiency score and does not update `last_accessed`: the
returned (and persisted) record still shows `efficiency_score = 0` and
the write-time `last_accessed`, while the claimed formula never yields 0
(it is at least 4 for any access count). -/
theorem c7_cex_redis_read_skips_recompute :
    (c7Get.1.bind (fun d => pyGet d "efficiency_score")) = some (.rat 0) ∧
    (c7Get.1.bind (fun d => pyGet d "last_accessed"))
      = some (.str (isoformat 0)) ∧
    isoformat 0 ≠ isoformat 5 ∧
    (c7Get.1.bind (fun d => pyGet d "access_count")) = some (.int 0) ∧
    (0 : ℚ) ≠ 100 * ((6 / 10) * min 1 ((0 : ℚ) / 10)
      + (4 / 10) * max (1 / 10) (1 - 0 / (7 * 86400))) ∧
    (0 : ℚ) ≠ 100 * ((6 / 10) * min 1 ((1 : ℚ) / 10)
      + (4 / 10) * max (1 / 10) (1 - 0 / (7 * 86400))) :=
  ⟨rfl, rfl, by with_unfolding_all decide, rfl,
   by rw [min_def, max_def]; norm_num,
   by rw [min_def, max_def]; norm_num⟩

/-- C7 (amended): on every successful read served by the fallback
backend, the record's `efficiency_score` is recomputed as
`100 × (0.6 × min(1, access_count/10) + 0.4 × max(0.1, 1 −
age/(7×86400)))` with the age measured from the just-updated
`last_accessed`, the result lies in `[0, 100]`, and `last_accessed` is
set to the read instant — both on the persisted record and on the
returned dict.  (The Redis path returns the stored snapshot without any
recompute, see the counterexample.) -/
theorem c7_fallback_read_recomputes_score {s : SysState} {cid : String}
    {c : MemoryCrystal} (t1 t2 : ℚ) (hra : s.redisAvailable = false)
    (hl : lookupEntries s.mgr.crystals cid = some c) (ht : t1 ≤ t2) :
    (retrieve_crystal s t1 t2 cid).1 = some (c.update_access t1 t2).to_dict ∧
    lookupEntries (retrieve_crystal s t1 t2 cid).2.mgr.crystals cid
      = some (c.update_access t1 t2) ∧
    (c.update_access t1 t2).last_accessed = t1 ∧
    (c.update_access t1 t2).efficiency_score
      = 100 * ((6 / 10) * min 1 (((c.update_access t1 t2).access_count : ℚ) / 10)
        + (4 / 10) * max (1 / 10)
            (1 - (t2 - (c.update_access t1 t2).last_accessed) / (7 * 86400))) ∧
    0 ≤ (c.update_access t1 t2).efficiency_score ∧
    (c.update_access t1 t2).efficiency_score ≤ 100 ∧
    pyGet (c.update_access t1 t2).to_dict "efficiency_score"
      = some (.rat (c.update_access t1 t2).efficiency_score) ∧
    pyGet (c.update_access t1 t2).to_dict "last_accessed"
      = some (.str (isoformat t1)) := by
  have hX0 : (0 : ℚ) ≤ min 1 (((c.access_count + 1 : Nat) : ℚ) / 10) :=
    le_min zero_le_one (by positivity)
  have hX1 : min 1 (((c.access_count + 1 : Nat) : ℚ) / 10) ≤ 1 := min_le_left _ _
  have hY0 : (1 / 10 : ℚ) ≤ max (1 / 10) (1 - (t2 - t1) / (7 * 24 * 3600)) :=
    le_max_left _ _
  have hY1 : max (1 / 10 : ℚ) (1 - (t2 - t1) / (7 * 24 * 3600)) ≤ 1 := by
    apply max_le (by norm_num)
    have hage : (0 : ℚ) ≤ (t2 - t1) / (7 * 24 * 3600) :=
      div_nonneg (sub_nonneg.mpr ht) (by norm_num)
    linarith
  refine ⟨?_, ?_, rfl, ?_, ?_, ?_, rfl, rfl⟩
  · rw [retrieve_hit_mem_spec t1 t2 hra hl]
  · rw [retrieve_hit_mem_spec t1 t2 hra hl]
    exact lookupEntries_setEntry_self _ _ _
  · rw [update_access_score, pymin_eq_min, pymax_eq_max]
    show _ = 100 * ((6 / 10) * min 1 (((c.access_count + 1 : Nat) : ℚ) / 10)
      + (4 / 10) * max (1 / 10) (1 - (t2 - t1) / (7 * 86400)))
    have h7 : (7 * 24 * 3600 : ℚ) = 7 * 86400 := by norm_num
    rw [h7]
    ring
  · rw [update_access_score, pymin_eq_min, pymax_eq_max]
    nlinarith
  · rw [update_access_score, pymin_eq_min, pymax_eq_max]
    nlinarith

/-- Fallback-mode store used by the C7 witness. -/
def c7wPut : Option String × SysState :=
  store_crystal (initState false) true 0 "hyperfocus"
    (.dict [("k", .str "v")]) (.dict [])

/-- C7 witness: the amended recompute property at a concrete fallback
read. -/
theorem c7_fallback_read_recomputes_score_witness :
    lookupEntries (retrieve_crystal c7wPut.2 3 4 (c7wPut.1.getD "")).2.mgr.crystals
        (c7wPut.1.getD "")
      = some ((MemoryCrystal.make (c7wPut.1.getD "") "hyperfocus"
          (.dict [("k", .str "v")]) (.dict []) 0).update_access 3 4) :=
  (c7_fallback_read_recomputes_score 3 4
    (show (c7wPut.2).redisAvailable = false from rfl)
    (show lookupEntries c7wPut.2.mgr.crystals (c7wPut.1.getD "")
        = some (MemoryCrystal.make (c7wPut.1.getD "") "hyperfocus"
            (.dict [("k", .str "v")]) (.dict []) 0) from rfl)
    (by norm_num)).2.1

/-- The `cache_ratio` computed by `calculate_crystal_efficiency`. -/
def cacheRatioOf (s : SysState) : ℚ :=
  if s.mgr.hits + s.mgr.misses = 0 then 100
  else ((s.mgr.hits : ℚ) / ((s.mgr.hits : ℚ) + (s.mgr.misses : ℚ))) * 100

/-- The history sample appended by `calculate_crystal_efficiency`. -/
def effSample (s : SysState) (t : ℚ) : EffSample :=
  { timestamp := t
    efficiency := cacheRatioOf s * (6 / 10)
      + pymin 100 ((activeCount s : ℚ) * 2) * (4 / 10)
    cacheRatio := cacheRatioOf s
    active_crystals := activeCount s }

/-- The history after `calculate_crystal_efficiency`, written out. -/
theorem calculate_crystal_efficiency_history (s : SysState) (t : ℚ) :
    (calculate_crystal_efficiency s t).2.mgr.efficiency_history
      = (if 100 < (s.mgr.efficiency_history ++ [effSample s t]).length
         then (s.mgr.efficiency_history ++ [effSample s t]).tail
         else s.mgr.efficiency_history ++ [effSample s t]) := rfl

/-- `store_crystal` never touches the efficiency history. -/
theorem store_preserves_history (s : SysState) (ok : Bool) (t : ℚ)
    (cat : String) (pd md : PyVal) :
    (store_crystal s ok t cat pd md).2.mgr.efficiency_history
      = s.mgr.efficiency_history := by
  unfold store_crystal
  cases hg : generate_crystal_id pd cat with
  | none => rfl
  | some cid =>
    rcases Bool.eq_false_or_eq_true s.redisAvailable with hra | hra <;> rw [hra]
    · cases ok with
      | true =>
        simp only [if_true]
        exact (storeBump_spec _ t).2.2.2.2.1
      | false => rfl
    · simp only [Bool.false_eq_true, if_false]
      exact (storeBump_spec _ t).2.2.2.2.1

/-- `retrieve_crystal` never touches the efficiency history. -/
theorem retrieve_preserves_history (s : SysState) (t1 t2 : ℚ) (cid : String) :
    (retrieve_crystal s t1 t2 cid).2.mgr.efficiency_history
      = s.mgr.efficiency_history := by
  rcases Bool.eq_false_or_eq_true s.redisAvailable with hra | hra
  · cases hl : lookupEntries s.redis ("crystal:" ++ cid) with
    | none => rw [retrieve_miss_redis_spec t1 t2 hra hl]
    | some v => rw [retrieve_hit_redis_spec t1 t2 hra hl]
  · cases hl : lookupEntries s.mgr.crystals cid with
    | none => rw [retrieve_miss_mem_spec t1 t2 hra hl]
    | some c => rw [retrieve_hit_mem_spec t1 t2 hra hl]

/-- C8: the efficiency-history buffer never exceeds 100 entries: each
`calculate_crystal_efficiency` call appends exactly one sample of
`(timestamp, efficiency, cache_ratio, active_crystals)` and, when the
length then exceeds 100, drops exactly the oldest entry (FIFO), so the
length-at-most-100 invariant is preserved; the store and retrieve
operations leave the history untouched. -/
theorem c8_history_ring_bounded (s : SysState) (t : ℚ)
    (h : s.mgr.efficiency_history.length ≤ 100) :
    (calculate_crystal_efficiency s t).2.mgr.efficiency_history.length ≤ 100 ∧
    (∃ x : EffSample,
      (s.mgr.efficiency_history.length < 100 ∧
        (calculate_crystal_efficiency s t).2.mgr.efficiency_history
          = s.mgr.efficiency_history ++ [x]) ∨
      (s.mgr.efficiency_history.length = 100 ∧
        (calculate_crystal_efficiency s t).2.mgr.efficiency_history
          = s.mgr.efficiency_history.tail ++ [x])) ∧
    (∀ ok u cat pd md,
      (store_crystal s ok u cat pd md).2.mgr.efficiency_history
        = s.mgr.efficiency_history) ∧
    (∀ t1 t2 cid,
      (retrieve_crystal s t1 t2 cid).2.mgr.efficiency_history
        = s.mgr.efficiency_history) := by
  have hcalc := calculate_crystal_efficiency_history s t
  by_cases hlen : s.mgr.efficiency_history.length < 100
  · have hne : ¬(100 < (s.mgr.efficiency_history ++ [effSample s t]).length) := by
      simp only [List.length_append, List.length_singleton]
      omega
    rw [if_neg hne] at hcalc
    refine ⟨?_, ⟨effSample s t, Or.inl ⟨hlen, hcalc⟩⟩,
      fun ok u cat pd md => store_preserves_history s ok u cat pd md,
      fun t1 t2 cid => retrieve_preserves_history s t1 t2 cid⟩
    rw [hcalc]
    simp only [List.length_append, List.length_singleton]
    omega
  · have h100 : s.mgr.efficiency_history.length = 100 := by omega
    have hgt : 100 < (s.mgr.efficiency_history ++ [effSample s t]).length := by
      simp only [List.length_append, List.length_singleton]
      omega
    rw [if_pos hgt] at hcalc
    have htail : (s.mgr.efficiency_history ++ [effSample s t]).tail
        = s.mgr.efficiency_history.tail ++ [effSample s t] := by
      cases hh : s.mgr.efficiency_history with
      | nil => rw [hh] at h100; simp at h100
      | cons a rest => rfl
    rw [htail] at hcalc
    refine ⟨?_, ⟨effSample s t, Or.inr ⟨h100, hcalc⟩⟩,
      fun ok u cat pd md => store_preserves_history s ok u cat pd md,
      fun t1 t2 cid => retrieve_preserves_history s t1 t2 cid⟩
    rw [hcalc]
    simp only [List.length_append, List.length_singleton, List.length_tail]
    omega

/-- C8 witness: the bounded-history invariant at the fresh store. -/
theorem c8_history_ring_bounded_witness :
    (calculate_crystal_efficiency (initState false) 0).2.mgr.efficiency_history.length
      ≤ 100 :=
  (c8_history_ring_bounded (initState false) 0 (by decide)).1
